import Mathlib

/-!
Verification of the SPY 0DTE gap-trading dashboard's decision core.

Shallow embedding of the repository's Python source into Lean 4:

* `signals/entry_signals.py` — bullish/bearish point aggregation, signal
  strength classification, trading-window gating and timing warnings;
* `analyzers/gap_analyzer.py` — trading-window state machine, gap bucket
  scoring, direction multiplier, fallback results;
* `analyzers/internals_analyzer.py`, `analyzers/sector_analyzer.py`,
  `analyzers/technical_analyzer.py` — sub-component points breakdowns;
* `signals/exit_signals.py` — the exit scoring pipeline.

Python floats are embedded as rationals (ℚ); every constant appearing in
the relevant code paths is an exact decimal, so this is faithful for the
comparisons the source performs.  Python strings are embedded as `String`,
and the source's substring dispatch (`"X" in msg`) is embedded by an
executable containment function on character lists.  Wall-clock time is
passed explicitly: a weekday number (0 = Monday … 6 = Sunday, as returned
by Python's `datetime.weekday()`) and a time-of-day in microseconds since
midnight.  The f-string number formats (`.0f`, `.1f`) are embedded by an
explicit decimal digit writer (truncating where CPython rounds; none of
the verified properties depends on the printed digits, only on the set of
characters that can appear in them).

The file is organised as definitions first, then theorems.
-/

namespace SpyDash

/-! ### String containment (embedding of Python's `in` on strings) -/

/-- `listStartsWith s p` is true when `p` is a prefix of `s` (char lists). -/
def listStartsWith : List Char → List Char → Bool
  | _, [] => true
  | [], _ :: _ => false
  | c :: s, d :: p => c == d && listStartsWith s p

/-- `listContainsSub s p` is true when `p` occurs contiguously inside `s`. -/
def listContainsSub : List Char → List Char → Bool
  | [], pat => listStartsWith [] pat
  | c :: t, pat => listStartsWith (c :: t) pat || listContainsSub t pat

/-- Embedding of Python's `pat in s` for strings. -/
def strContainsSub (s pat : String) : Bool := listContainsSub s.toList pat.toList

/-! ### Decimal rendering helpers

The window messages interpolate numbers (`{mins_until:.0f}` and the like).
The properties proved below never depend on the digits themselves, only on
which characters can occur in them, so the embedding renders a natural
number with an explicit digit writer whose character range is provable.
The fractional `.1f` case is rendered as integer part, a dot, and one
tenths digit. -/

def digitChar (n : Nat) : Char := Char.ofNat (48 + n % 10)

def natDigitsAux : Nat → Nat → List Char
  | 0, _ => []
  | fuel + 1, n => if n < 10 then [digitChar n] else natDigitsAux fuel (n / 10) ++ [digitChar (n % 10)]

/-- Decimal digits of `n`, most significant first. -/
def natDigits (n : Nat) : List Char := natDigitsAux (n + 1) n

/-- Render a natural number as a string of decimal digits. -/
def natStr (n : Nat) : String := ⟨natDigits n⟩

/-- Render `tenths / 10` with one decimal place (embedding of `.1f`). -/
def tenthsStr (tenths : Nat) : String := ⟨natDigits (tenths / 10) ++ ('.' :: [digitChar (tenths % 10)])⟩

/-! ### Trading window state machine

Embedding of `GapAnalyzer.check_trading_window` from
`analyzers/gap_analyzer.py`.  The Miami wall clock is passed as the
weekday `wd` (Python convention: Monday = 0 … Sunday = 6) and the
time-of-day `t` in microseconds since midnight, so that the source's
`datetime` comparisons (which compare down to the microsecond) are exact
Nat comparisons here. -/

def usPerMinute : Nat := 60000000

def marketOpenUs : Nat := 34200000000

def tradingStartUs : Nat := 35100000000

def tradingEndUs : Nat := 39600000000

def lunchStartUs : Nat := 41400000000

def dangerZoneUs : Nat := 52200000000

def marketCloseUs : Nat := 57600000000

/-- `(market_open - now).total_seconds() / 3600` rendered with one decimal
place: the number of tenths-of-an-hour until the open. -/
def hoursUntilTenths (t : Nat) : Nat := (marketOpenUs - t) * 10 / 3600000000

/-- Embedding of `check_trading_window`: returns `(tradeable, message)`. -/
def checkTradingWindow (wd t : Nat) : Bool × String :=
  if wd = 5 then
    (false, "Weekend (Saturday) - Market opens Monday at 9:30 AM EDT")
  else if wd = 6 then
    (false, "Weekend (Sunday) - Market opens Monday at 9:30 AM EDT")
  else if t < marketOpenUs then
    (false, "Market opens in " ++ tenthsStr (hoursUntilTenths t) ++ " hours (9:30 AM EDT)")
  else if t < tradingStartUs then
    (false, "OPENING VOLATILITY - Trading window opens in " ++
      natStr ((tradingStartUs - t) / usPerMinute) ++ " minutes (9:45 AM)")
  else if t ≤ tradingEndUs then
    (true, "PRIME 0DTE WINDOW - " ++ natStr ((tradingEndUs - t) / usPerMinute) ++
      " minutes left in optimal zone")
  else if t < lunchStartUs then
    (false, "POST-WINDOW - Gap edge diminished, wait for tomorrow")
  else if t < dangerZoneUs then
    (false, "LUNCH DOLDRUMS - Low volume, avoid 0DTE trades")
  else if t < marketCloseUs then
    (false, "DANGER ZONE - Extreme theta burn, exit only (" ++
      natStr ((marketCloseUs - t) / usPerMinute) ++ " min to close)")
  else
    (false, "Market closed - Next 0DTE window: " ++
      (if wd = 4 then "Monday" else "Tomorrow") ++ " 9:45-11:00 AM")

/-- The named time regimes of the spec's TradingWindowState, as decided by
the branch structure of `check_trading_window`. -/
inductive Regime where
  | weekend
  | preMarket
  | openingVol
  | prime
  | postWindow
  | lunch
  | danger
  | closed
  deriving DecidableEq

/-- Which branch of `check_trading_window` fires, as a regime tag.  The
conditions are syntactically those of `checkTradingWindow`. -/
def tradingRegime (wd t : Nat) : Regime :=
  if wd = 5 then .weekend
  else if wd = 6 then .weekend
  else if t < marketOpenUs then .preMarket
  else if t < tradingStartUs then .openingVol
  else if t ≤ tradingEndUs then .prime
  else if t < lunchStartUs then .postWindow
  else if t < dangerZoneUs then .lunch
  else if t < marketCloseUs then .danger
  else .closed

/-! ### Entry signal generation

Embedding of `EntrySignalGenerator` from `signals/entry_signals.py`, with
the thresholds from `config.DECISION_THRESHOLDS` (`strong_signal = 7.0`,
`moderate_signal = 5.0`). -/

def strongSignalThreshold : ℚ := 7.0

def moderateSignalThreshold : ℚ := 5.0

/-- Embedding of `_determine_signal_strength(bullish_points, bearish_points)`:
returns `(signal_decision, confidence)`.  `net_points = bullish - bearish`. -/
def determineSignalStrength (bullishPoints bearishPoints : ℚ) : String × String :=
  if bullishPoints - bearishPoints ≥ strongSignalThreshold then ("STRONG LONG", "HIGH")
  else if bullishPoints - bearishPoints ≥ moderateSignalThreshold then
    ("MODERATE LONG", "MEDIUM")
  else if bullishPoints - bearishPoints ≤ -strongSignalThreshold then ("STRONG SHORT", "HIGH")
  else if bullishPoints - bearishPoints ≤ -moderateSignalThreshold then
    ("MODERATE SHORT", "MEDIUM")
  else ("NO TRADE", "LOW")

/-- Inputs to `_calculate_points`: the `total_points` of each analyzer dict
plus the trend fields read from `spy_data`. -/
structure EntryInputs where
  gapPoints : ℚ
  internalsPoints : ℚ
  sectorsPoints : ℚ
  technicalsPoints : ℚ
  emaPoints : ℚ
  accelerationPoints : ℚ
  shiftDetected : Bool
  shiftPoints : ℚ

/-- Embedding of `_calculate_points`: returns `(total_bullish, total_bearish)`. -/
def calculatePoints (inp : EntryInputs) : ℚ × ℚ :=
  let trendPoints := inp.emaPoints + inp.accelerationPoints +
    (if inp.shiftDetected then inp.shiftPoints else 0)
  let totalBullish := max 0 inp.gapPoints + max 0 inp.internalsPoints +
    max 0 inp.sectorsPoints + max 0 inp.technicalsPoints + max 0 trendPoints
  let totalBearish := |min 0 inp.gapPoints| + |min 0 inp.internalsPoints| +
    |min 0 inp.sectorsPoints| + |min 0 inp.technicalsPoints| + |min 0 trendPoints|
  (totalBullish, totalBearish)

/-- Embedding of `_get_timing_warning(raw_signal, window_message)`: a
substring dispatch over the window message. -/
def getTimingWarning (rawSignal windowMessage : String) : String :=
  if strContainsSub windowMessage "OPENING VOLATILITY" then
    "TIMING WARNING: Indicators show " ++ rawSignal ++
      ", but opening volatility makes execution risky. Wait for 9:45 AM."
  else if strContainsSub windowMessage "POST-WINDOW" then
    "TIMING WARNING: Indicators show " ++ rawSignal ++
      ", but gap edge has diminished. Consider waiting for tomorrow."
  else if strContainsSub windowMessage "LUNCH DOLDRUMS" then
    "TIMING WARNING: Indicators show " ++ rawSignal ++
      ", but low volume makes fills poor. Avoid lunch hours."
  else if strContainsSub windowMessage "DANGER ZONE" then
    "TIMING WARNING: Indicators show " ++ rawSignal ++
      ", but theta burn is extreme. Exit existing positions only."
  else if strContainsSub windowMessage "Weekend" then
    "ANALYSIS ONLY: Indicators would suggest " ++ rawSignal ++
      " if market were open. Review for Monday."
  else
    "TIMING WARNING: Indicators show " ++ rawSignal ++ ", but market timing is suboptimal."

/-- The fields of the dict returned by `get_final_decision` that the
verified claims are about. -/
structure FinalDecision where
  decision : String
  confidence : String
  bullishPoints : ℚ
  bearishPoints : ℚ
  rawSignal : String
  tradingWindowOk : Bool
  windowMessage : String
  timingWarning : Option String

/-- Embedding of `EntrySignalGenerator.get_final_decision`, with the wall
clock passed explicitly to the inner `check_trading_window` call. -/
def getFinalDecision (inp : EntryInputs) (wd t : Nat) : FinalDecision :=
  let bp := (calculatePoints inp).1
  let rp := (calculatePoints inp).2
  let sc := determineSignalStrength bp rp
  let w := checkTradingWindow wd t
  if w.1 && strContainsSub w.2 "PRIME 0DTE WINDOW" then
    { decision := sc.1, confidence := sc.2, bullishPoints := bp, bearishPoints := rp,
      rawSignal := sc.1, tradingWindowOk := w.1, windowMessage := w.2, timingWarning := none }
  else
    { decision := "NO TRADE - OUTSIDE WINDOW", confidence := sc.2, bullishPoints := bp,
      bearishPoints := rp, rawSignal := sc.1, tradingWindowOk := w.1, windowMessage := w.2,
      timingWarning := some (getTimingWarning sc.1 w.2) }

/-- The un-gated signal (`signal_decision` in `get_final_decision`). -/
def rawSignalOf (inp : EntryInputs) : String :=
  (determineSignalStrength (calculatePoints inp).1 (calculatePoints inp).2).1

/-! ### Gap analyzer points breakdown

Embedding of `GapAnalyzer._calculate_points_breakdown`,
`_get_gap_category` and `_get_vwap_status` from
`analyzers/gap_analyzer.py`.  The `reason` strings of the breakdown dict
are display-only and carry no data beyond the points, so the embedding
keeps the points. -/

/-- The numeric fields of the `points_breakdown` dict. -/
structure GapPointsBreakdown where
  gapSize : ℚ
  statSignificance : ℚ
  volumeConfirmation : ℚ
  vwapAlignment : ℚ
  esAlignment : ℚ
  totalBasePoints : ℚ
  directionMultiplier : ℚ
  finalPoints : ℚ

/-- Gap size points (the first branch block of
`_calculate_points_breakdown`), as a function of `abs_gap`. -/
def gapSizePoints (absGap : ℚ) : ℚ :=
  if absGap ≥ 2.5 then 1.0
  else if absGap ≥ 1.5 then 2.0
  else if absGap ≥ 0.75 then 1.5
  else if absGap ≥ 0.5 then 1.0
  else 0.0

/-- Statistical-significance points. -/
def statSigPoints (absGap : ℚ) : ℚ := if absGap ≥ 1.5 then 0.5 else 0.0

/-- The volume surge ratio: `today_volume / avg_volume if avg_volume > 0
else 1.39`. -/
def volumeSurgeOf (todayVolume avgVolume : ℚ) : ℚ :=
  if avgVolume > 0 then todayVolume / avgVolume else 1.39

/-- Volume-confirmation points. -/
def volConfPoints (volumeSurge : ℚ) : ℚ :=
  if volumeSurge ≥ 2.0 then 1.0
  else if volumeSurge ≥ 1.5 then 0.5
  else 0.0

/-- VWAP-alignment points. -/
def vwapAlignPoints (vwapDistance : ℚ) : ℚ :=
  if |vwapDistance| > 0.25 then 1.0
  else if |vwapDistance| > 0.1 then 0.5
  else 0.0

/-- Embedding of `_calculate_points_breakdown(gap_pct, spy_data,
today_volume, avg_volume)`; `vwapDistance` is
`spy_data['vwap_data'].get('distance_pct', 0.0)`. -/
def calculatePointsBreakdown (gapPct vwapDistance todayVolume avgVolume : ℚ) :
    GapPointsBreakdown :=
  let gapSize := gapSizePoints |gapPct|
  let statSig := statSigPoints |gapPct|
  let volConf := volConfPoints (volumeSurgeOf todayVolume avgVolume)
  let vwapAlign := vwapAlignPoints vwapDistance
  let es : ℚ := 0.5
  let base := gapSize + statSig + volConf + vwapAlign + es
  if gapPct < 0 then
    if vwapDistance < 0 then
      ⟨gapSize, statSig, volConf, vwapAlign, es, base, -1.0, -base⟩
    else
      ⟨gapSize, statSig, volConf, vwapAlign, es, base, -0.5, -base * 0.5⟩
  else
    if vwapDistance > 0 then
      ⟨gapSize, statSig, volConf, vwapAlign, es, base, 1.0, base⟩
    else
      ⟨gapSize, statSig, volConf, vwapAlign, es, base, 0.5, base * 0.5⟩

/-- Embedding of `_get_gap_category(abs_gap)`. -/
def getGapCategory (absGap : ℚ) : String :=
  if absGap ≥ 2.5 then "MONSTER"
  else if absGap ≥ 1.5 then "LARGE"
  else if absGap ≥ 0.75 then "MEDIUM"
  else if absGap ≥ 0.5 then "SMALL"
  else "MINIMAL"

/-- Embedding of `_get_vwap_status(vwap_distance)`. -/
def getVwapStatus (vwapDistance : ℚ) : String :=
  if |vwapDistance| < 0.05 then "AT VWAP"
  else if vwapDistance > 0.25 then "STRONG ABOVE"
  else if vwapDistance > 0.05 then "ABOVE"
  else if vwapDistance < -0.25 then "STRONG BELOW"
  else "BELOW"

/-! ### The gap analysis pipeline

Embedding of `GapAnalyzer.calculate_gap_analysis`.  The external world is
an explicit environment: the result of `get_spy_data_enhanced` and of
`_get_gap_data`, each as an `Except` so that an unexpected exception
inside either step can be modelled (the source wraps the whole pipeline in
`try/except`), plus the weekday for the weekend check. -/

/-- The fields of `spy_data` that `calculate_gap_analysis` reads.  The
volume fields are carried (as the source carries `volume_data`) but — as
claim C9 observes — never read by the gap points pipeline. -/
structure SpyLite where
  currentPrice : ℚ
  currentVolume : ℚ
  avgVolume : ℚ
  vwapDistancePct : ℚ
  source : String

structure GapEnv where
  spyData : Except String SpyLite
  gapData : Except String ℚ
  weekday : Nat

/-- The fields of the dict returned by `calculate_gap_analysis` that the
claims are about.  `subComponents` lists the named sub-component entries
of `points_breakdown` (those with a `points` key), in source order. -/
structure GapAnalysisResult where
  gapPct : ℚ
  gapSizeCategory : String
  statisticalSignificance : String
  volumeSurgeRatio : ℚ
  vwapDistancePct : ℚ
  vwapStatus : String
  totalPoints : ℚ
  subComponents : List (String × ℚ)
  finalPoints : ℚ
  dataSource : String

/-- Embedding of `_get_weekend_analysis(friday_close)` (the fields above;
`friday_close` itself only feeds the display message). -/
def weekendAnalysis : GapAnalysisResult :=
  { gapPct := 0.0, gapSizeCategory := "WEEKEND", statisticalSignificance := "PENDING",
    volumeSurgeRatio := 1.0, vwapDistancePct := 0.0, vwapStatus := "WEEKEND",
    totalPoints := 0.0, subComponents := [("gap_size", 0.0)], finalPoints := 0.0,
    dataSource := "Weekend Mode" }

/-- Embedding of `_get_fallback_gap_analysis()`. -/
def fallbackGapAnalysis : GapAnalysisResult :=
  { gapPct := -1.17, gapSizeCategory := "MEDIUM", statisticalSignificance := "LOW",
    volumeSurgeRatio := 1.39, vwapDistancePct := 0.0, vwapStatus := "AT VWAP",
    totalPoints := -2.0, subComponents := [("gap_size", 1.5)], finalPoints := -2.0,
    dataSource := "Proxy Fallback" }

/-- The `try:` body of `calculate_gap_analysis`.  `today_volume` and
`avg_volume` are the hardcoded constants 50000000 and 45000000 from the
source. -/
def calculateGapAnalysisTry (env : GapEnv) : Except String GapAnalysisResult :=
  match env.spyData with
  | .error e => .error e
  | .ok spy =>
    if env.weekday ≥ 5 then .ok weekendAnalysis
    else
      match env.gapData with
      | .error e => .error e
      | .ok gapPct =>
        let todayVolume : ℚ := 50000000
        let avgVolume : ℚ := 45000000
        let pb := calculatePointsBreakdown gapPct spy.vwapDistancePct todayVolume avgVolume
        .ok
          { gapPct := gapPct
            gapSizeCategory := getGapCategory |gapPct|
            statisticalSignificance := if |gapPct| ≥ 1.5 then "MODERATE" else "LOW"
            volumeSurgeRatio := if avgVolume > 0 then todayVolume / avgVolume else 1.39
            vwapDistancePct := spy.vwapDistancePct
            vwapStatus := getVwapStatus spy.vwapDistancePct
            totalPoints := pb.finalPoints
            subComponents :=
              [("gap_size", pb.gapSize), ("statistical_significance", pb.statSignificance),
               ("volume_confirmation", pb.volumeConfirmation),
               ("vwap_alignment", pb.vwapAlignment), ("es_alignment", pb.esAlignment)]
            finalPoints := pb.finalPoints
            dataSource := spy.source }

/-- Embedding of `calculate_gap_analysis`: the `except:` clause returns
the fixed fallback. -/
def calculateGapAnalysis (env : GapEnv) : GapAnalysisResult :=
  match calculateGapAnalysisTry env with
  | .ok r => r
  | .error _ => fallbackGapAnalysis

/-! ### Internals analyzer

Embedding of `InternalsAnalyzer` from `analyzers/internals_analyzer.py`:
the four indicator scorers, the emergency index-proxy path, the static
fallback, and the real-breadth path. -/

/-- Embedding of `_analyze_tick` (points component). -/
def analyzeTick (v : ℚ) : ℚ :=
  if v ≥ 1000 then 2.0
  else if v ≥ 200 then 1.0
  else if v ≤ -1000 then -2.0
  else if v ≤ -200 then -1.0
  else 0.0

/-- Embedding of `_analyze_trin` (points component). -/
def analyzeTrin (v : ℚ) : ℚ :=
  if v ≤ 0.8 then 1.0
  else if v ≥ 1.2 then -1.0
  else 0.0

/-- Embedding of `_analyze_nyad` (points component). -/
def analyzeNyad (v : ℚ) : ℚ :=
  if v > 1000 then 1.0
  else if v < -1000 then -1.0
  else 0.0

/-- Embedding of `_analyze_vold` (points component). -/
def analyzeVold (v : ℚ) : ℚ :=
  if v > 1.5 then 1.0
  else if v < 0.7 then -1.0
  else 0.0

/-- An internals result: the `total_points` and the named sub-component
entries of `points_breakdown`. -/
structure InternalsResult where
  totalPoints : ℚ
  subComponents : List (String × ℚ)

/-- Embedding of the scoring part of `_get_emergency_proxy_internals`,
given the advancing count over the fetched symbols. -/
def emergencyProxyInternals (advancingCount totalCount : Nat) : InternalsResult :=
  let advancePct : ℚ :=
    if totalCount > 0 then ((advancingCount : ℚ) / (totalCount : ℚ) - 0.5) * 2 else 0
  let tickP := analyzeTick (advancePct * 1000)
  let trinP := analyzeTrin (if advancePct > -0.9 then 1.0 / (1.0 + advancePct) else 2.0)
  let nyadP := analyzeNyad (advancePct * 2000)
  let voldP := analyzeVold (1.0 + advancePct)
  ⟨tickP + trinP + nyadP + voldP,
   [("tick", tickP), ("trin", trinP), ("nyad", nyadP), ("vold", voldP)]⟩

/-- Embedding of `_get_emergency_fallback` (the fixed static points). -/
def emergencyFallbackInternals : InternalsResult :=
  ⟨-2.0, [("tick", -0.5), ("trin", 0.0), ("nyad", -1.0), ("vold", -0.5)]⟩

/-- Embedding of `_process_real_breadth_data`: each indicator contributes
its points when its symbol resolved, otherwise the zero-initialised entry
stays; VOLD is estimated from TICK and TRIN when both are present. -/
def processRealBreadthData (tickVal trinVal nyadVal : Option ℚ) : InternalsResult :=
  let tickP := match tickVal with | some v => analyzeTick v | none => 0
  let trinP := match trinVal with | some v => analyzeTrin v | none => 0
  let nyadP := match nyadVal with | some v => analyzeNyad v | none => 0
  let voldVal : ℚ :=
    match tickVal, trinVal with
    | some tv, some rv =>
      if tv > 500 ∧ rv < 0.9 then 1.8
      else if tv < -500 ∧ rv > 1.1 then 0.4
      else 1.0
    | _, _ => 1.0
  let voldP := analyzeVold voldVal
  ⟨tickP + trinP + nyadP + voldP,
   [("tick", tickP), ("trin", trinP), ("nyad", nyadP), ("vold", voldP)]⟩

/-! ### Sector analyzer

Embedding of `SectorAnalyzer.analyze_sectors` from
`analyzers/sector_analyzer.py`: per-sector strength scores, weighted by
`config.SECTOR_WEIGHTS` (default 0.05), summed into `total_points`, with
the individual weighted scores as the breakdown entries. -/

/-- `SECTOR_WEIGHTS.get(symbol, 0.05)`. -/
def sectorWeight (s : String) : ℚ :=
  if s = "XLK" then 0.25
  else if s = "XLF" then 0.15
  else if s = "XLV" then 0.15
  else if s = "XLY" then 0.12
  else if s = "XLI" then 0.10
  else if s = "XLP" then 0.08
  else if s = "XLE" then 0.05
  else if s = "XLU" then 0.05
  else if s = "XLRE" then 0.05
  else 0.05

/-- Embedding of `_calculate_strength_score`. -/
def strengthScore (relativeStrength volumeRatio : ℚ) : ℚ :=
  if relativeStrength > 0.5 ∧ volumeRatio > 1.2 then 2
  else if relativeStrength > 0.2 then 1
  else if relativeStrength < -0.5 ∧ volumeRatio > 1.2 then -2
  else if relativeStrength < -0.2 then -1
  else 0

/-- One sector's resolved quote data. -/
structure SectorInput where
  symbol : String
  changePct : ℚ
  volume : ℚ
  avgVolume : ℚ

/-- One sector's weighted score contribution. -/
def sectorWeightedScore (spyChange : ℚ) (si : SectorInput) : ℚ :=
  let volumeRatio := if si.avgVolume > 0 then si.volume / si.avgVolume else 1.0
  strengthScore (si.changePct - spyChange) volumeRatio * sectorWeight si.symbol

/-- A sectors result: `total_points` and the `individual_scores`
weighted-score entries. -/
structure SectorsResult where
  totalPoints : ℚ
  subComponents : List (String × ℚ)

/-- Embedding of the scoring loop of `analyze_sectors`. -/
def analyzeSectorsResult (spyChange : ℚ) (l : List SectorInput) : SectorsResult :=
  ⟨(l.map (sectorWeightedScore spyChange)).sum,
   l.map fun si => (si.symbol, sectorWeightedScore spyChange si)⟩

/-- Embedding of `_get_fallback_sector_analysis` (zero points, no
individual score entries). -/
def fallbackSectorAnalysis : SectorsResult := ⟨0.0, []⟩

/-! ### Technical analyzer

Embedding of `TechnicalAnalyzer._calculate_technicals_breakdown` and its
point components from `analyzers/technical_analyzer.py`. -/

/-- Embedding of `_calculate_vwap_points`. -/
def calculateVwapPoints (d : ℚ) : ℚ :=
  if |d| > 0.3 then (if d > 0 then 2.0 else -2.0)
  else if |d| > 0.15 then (if d > 0 then 1.0 else -1.0)
  else if |d| > 0.05 then (if d > 0 then 0.5 else -0.5)
  else 0.0

/-- Embedding of `_calculate_sr_points`. -/
def calculateSrPoints (currentPrice yesterdayHigh yesterdayLow : ℚ) : ℚ :=
  if currentPrice > yesterdayHigh then 1.0
  else if currentPrice < yesterdayLow then -1.0
  else 0.0

/-- Embedding of `_calculate_volume_points`. -/
def calculateVolumePoints (volumeConfirmation : ℚ) : ℚ :=
  if volumeConfirmation > 1.5 then 0.5
  else if volumeConfirmation < 0.8 then -0.5
  else 0.0

/-- A technicals result: `total_points` and the named sub-components. -/
structure TechnicalsResult where
  totalPoints : ℚ
  subComponents : List (String × ℚ)

/-- Embedding of `_calculate_technicals_breakdown`. -/
def calculateTechnicalsBreakdown (d currentPrice hi lo volumeConfirmation : ℚ) :
    TechnicalsResult :=
  ⟨calculateVwapPoints d + calculateSrPoints currentPrice hi lo +
      calculateVolumePoints volumeConfirmation,
   [("vwap", calculateVwapPoints d),
    ("support_resistance", calculateSrPoints currentPrice hi lo),
    ("volume", calculateVolumePoints volumeConfirmation)]⟩

/-- Embedding of `_get_fallback_technicals` (points fields). -/
def fallbackTechnicals : TechnicalsResult :=
  ⟨-1.0, [("vwap", 0.0), ("support_resistance", -0.5), ("volume", -0.5)]⟩

/-! ### Exit signal evaluator

Embedding of `ExitSignalManager` from `signals/exit_signals.py`.  The
`exit_signals` dict is a record; the additive score is an integer (every
increment in the source is an integer literal).  The resolved current
valuation, the minutes to close, the resolved targets and the current
underlying price are passed explicitly, as the source computes them from
the wall clock and live quotes before the scoring pipeline runs. -/

structure ExitSignals where
  primarySignal : String
  urgency : String
  reasons : List String
  profitLossPct : ℚ
  currentPrice : ℚ
  entryPrice : ℚ
  timeWarnings : List String
  shouldExit : Bool
  exitScore : ℤ
  priceSource : String
  calculationMethod : String

/-- The initial `exit_signals` dict of `get_exit_signals`. -/
def initExitSignals (entryPrice : ℚ) : ExitSignals :=
  { primarySignal := "HOLD", urgency := "LOW", reasons := [], profitLossPct := 0,
    currentPrice := 0, entryPrice := entryPrice, timeWarnings := [], shouldExit := false,
    exitScore := 0, priceSource := "Unknown", calculationMethod := "Unknown" }

/-- Embedding of `_analyze_time_exits`. -/
def analyzeTimeExits (s : ExitSignals) (minutesToClose : ℚ) : ExitSignals :=
  if minutesToClose ≤ 30 then
    { s with
      exitScore := s.exitScore + 8
      primarySignal := "IMMEDIATE EXIT"
      urgency := "CRITICAL"
      timeWarnings := s.timeWarnings ++ ["🚨 FINAL 30 MINUTES - Theta burn accelerating"] }
  else if minutesToClose ≤ 60 then
    { s with
      exitScore := s.exitScore + 5
      primarySignal := "STRONG EXIT"
      urgency := "HIGH"
      timeWarnings := s.timeWarnings ++ ["⚠️ Final hour - Start looking for exit"] }
  else if minutesToClose ≤ 90 then
    { s with
      exitScore := s.exitScore + 3
      timeWarnings := s.timeWarnings ++ ["🕐 90 minutes left - Prepare for exit"] }
  else s

/-- Embedding of `_analyze_profit_exits` (the reason strings interpolate
the P&L; the interpolated text is display-only and elided). -/
def analyzeProfitExits (s : ExitSignals) (pnlPct : ℚ) : ExitSignals :=
  if pnlPct ≥ 100 then
    { s with
      exitScore := s.exitScore + 6
      reasons := s.reasons ++ ["🎯 MASSIVE WIN"] }
  else if pnlPct ≥ 50 then
    { s with
      exitScore := s.exitScore + 4
      reasons := s.reasons ++ ["✅ STRONG PROFIT"] }
  else if pnlPct ≥ 25 then
    { s with
      exitScore := s.exitScore + 2
      reasons := s.reasons ++ ["💰 Good profit"] }
  else s

/-- Embedding of `_analyze_stop_loss_exits`. -/
def analyzeStopLossExits (s : ExitSignals) (pnlPct : ℚ) : ExitSignals :=
  if pnlPct ≤ -70 then
    { s with
      exitScore := s.exitScore + 8
      primarySignal := "IMMEDIATE EXIT"
      urgency := "CRITICAL"
      reasons := s.reasons ++ ["🛑 MAJOR STOP LOSS"] }
  else if pnlPct ≤ -50 then
    { s with
      exitScore := s.exitScore + 6
      primarySignal := "STRONG EXIT"
      urgency := "HIGH"
      reasons := s.reasons ++ ["🛑 STOP LOSS HIT"] }
  else if pnlPct ≤ -30 then
    { s with
      exitScore := s.exitScore + 4
      reasons := s.reasons ++ ["⚠️ Significant loss"] }
  else s

/-- Embedding of `_analyze_target_exits`; `upsideTarget`/`downsideTarget`
are the resolved targets and `spyPrice` the current underlying price. -/
def analyzeTargetExits (s : ExitSignals) (entryDecision : String)
    (upsideTarget downsideTarget spyPrice : ℚ) : ExitSignals :=
  if strContainsSub entryDecision "LONG" && decide (spyPrice ≥ upsideTarget) then
    { s with
      exitScore := s.exitScore + 5
      reasons := s.reasons ++ ["🎯 SPY TARGET HIT"] }
  else if strContainsSub entryDecision "SHORT" && decide (spyPrice ≤ downsideTarget) then
    { s with
      exitScore := s.exitScore + 5
      reasons := s.reasons ++ ["🎯 SPY TARGET HIT"] }
  else s

/-- Embedding of `_make_final_exit_decision`. -/
def makeFinalExitDecision (s : ExitSignals) : ExitSignals :=
  if s.exitScore ≥ 8 then
    { s with
      shouldExit := true
      primarySignal := "IMMEDIATE EXIT"
      urgency := "CRITICAL"
      exitScore := min s.exitScore 10 }
  else if s.exitScore ≥ 5 then
    { s with
      shouldExit := true
      primarySignal := "STRONG EXIT"
      urgency := "HIGH" }
  else if s.exitScore ≥ 3 then
    { s with
      primarySignal := "CONSIDER EXIT"
      urgency := "MEDIUM" }
  else s

/-- The state `get_exit_signals` has built just before
`_make_final_exit_decision` runs. -/
def preFinalExitState (entryDecision : String) (entryPrice currentPrice : ℚ)
    (minutesToClose upsideTarget downsideTarget spyPrice : ℚ) : ExitSignals :=
  let s1 := { initExitSignals entryPrice with currentPrice := currentPrice }
  let pnl := if currentPrice > 0 then ((currentPrice - entryPrice) / entryPrice) * 100 else -100
  let s2 := { s1 with profitLossPct := pnl }
  let s3 := analyzeTimeExits s2 minutesToClose
  let s4 := analyzeProfitExits s3 pnl
  let s5 := analyzeStopLossExits s4 pnl
  analyzeTargetExits s5 entryDecision upsideTarget downsideTarget spyPrice

/-- Embedding of the scoring part of `get_exit_signals` (after the
current valuation has been resolved). -/
def getExitSignalsCore (entryDecision : String) (entryPrice currentPrice : ℚ)
    (minutesToClose upsideTarget downsideTarget spyPrice : ℚ) : ExitSignals :=
  makeFinalExitDecision
    (preFinalExitState entryDecision entryPrice currentPrice minutesToClose
      upsideTarget downsideTarget spyPrice)

/-- Strength order on primary signals, for the no-downgrade property. -/
def signalRank (s : String) : ℕ :=
  if s = "IMMEDIATE EXIT" then 3
  else if s = "STRONG EXIT" then 2
  else if s = "CONSIDER EXIT" then 1
  else 0

/-- Strength order on urgency labels. -/
def urgencyRank (u : String) : ℕ :=
  if u = "CRITICAL" then 3
  else if u = "HIGH" then 2
  else if u = "MEDIUM" then 1
  else 0

/-- The state invariant maintained by the scoring stages before the final
decision: the score is non-negative, a primary signal implies the score
floor that set it, signal and urgency move together, and `should_exit` is
still unset. -/
def ExitInv (s : ExitSignals) : Prop :=
  0 ≤ s.exitScore ∧
  (s.primarySignal = "IMMEDIATE EXIT" → 8 ≤ s.exitScore) ∧
  (s.primarySignal = "STRONG EXIT" → 5 ≤ s.exitScore) ∧
  (s.primarySignal = "HOLD" ∧ s.urgency = "LOW" ∨
    s.primarySignal = "IMMEDIATE EXIT" ∧ s.urgency = "CRITICAL" ∨
    s.primarySignal = "STRONG EXIT" ∧ s.urgency = "HIGH") ∧
  s.shouldExit = false

end SpyDash

namespace SpyDash

/-! ## Theorems -/

/-! ### String containment lemmas -/

theorem toList_mk (l : List Char) : (String.mk l).toList = l := rfl

theorem toList_append (a b : String) : (a ++ b).toList = a.toList ++ b.toList :=
  String.data_append a b

theorem listStartsWith_append (p r : List Char) : listStartsWith (p ++ r) p = true := by
  induction p with
  | nil => cases r <;> rfl
  | cons c t ih => simp [listStartsWith, ih]

theorem listContainsSub_of_startsWith (s p : List Char) (h : listStartsWith s p = true) :
    listContainsSub s p = true := by
  cases s with
  | nil => cases p with
    | nil => rfl
    | cons d t => simp [listStartsWith] at h
  | cons c t => simp [listContainsSub, h]

theorem mem_of_listStartsWith (s p : List Char) (h : listStartsWith s p = true) :
    ∀ c ∈ p, c ∈ s := by
  induction p generalizing s with
  | nil => simp
  | cons d t ih =>
    match s with
    | [] => simp [listStartsWith] at h
    | e :: u =>
      simp [listStartsWith] at h
      intro c hc
      rcases List.mem_cons.mp hc with h1 | h2
      · simp [h1, h.1]
      · exact List.mem_cons_of_mem _ (ih u h.2 c h2)

theorem mem_of_listContainsSub (s p : List Char) (h : listContainsSub s p = true) :
    ∀ c ∈ p, c ∈ s := by
  induction s with
  | nil =>
    match p with
    | [] => simp
    | d :: t => simp [listContainsSub, listStartsWith] at h
  | cons e u ih =>
    simp only [listContainsSub, Bool.or_eq_true] at h
    rcases h with h | h
    · exact mem_of_listStartsWith _ _ h
    · intro c hc
      exact List.mem_cons_of_mem _ (ih h c hc)

/-- If some character of the pattern does not occur in the string, the
pattern is not a substring. -/
theorem listContainsSub_eq_false (s p : List Char) (c : Char) (hc : c ∈ p) (hs : c ∉ s) :
    listContainsSub s p = false := by
  by_contra h
  exact hs (mem_of_listContainsSub s p (by simpa using h) c hc)

theorem digitChar_mem_digits (n : Nat) :
    digitChar n ∈ ['0', '1', '2', '3', '4', '5', '6', '7', '8', '9'] := by
  have h : n % 10 < 10 := Nat.mod_lt _ (by norm_num)
  have key : ∀ k < 10, Char.ofNat (48 + k) ∈
      ['0', '1', '2', '3', '4', '5', '6', '7', '8', '9'] := by decide
  exact key (n % 10) h

theorem natDigitsAux_subset (fuel n : Nat) :
    ∀ c ∈ natDigitsAux fuel n, c ∈ ['0', '1', '2', '3', '4', '5', '6', '7', '8', '9'] := by
  induction fuel generalizing n with
  | zero => simp [natDigitsAux]
  | succ fuel ih =>
    intro c hc
    simp only [natDigitsAux] at hc
    split at hc
    · simp at hc
      simpa [hc] using digitChar_mem_digits n
    · rcases List.mem_append.mp hc with h | h
      · exact ih (n / 10) c h
      · simp at h
        simpa [h] using digitChar_mem_digits (n % 10)

theorem natStr_subset (n : Nat) :
    ∀ c ∈ (natStr n).toList, c ∈ ['0', '1', '2', '3', '4', '5', '6', '7', '8', '9'] := by
  intro c hc
  rw [natStr, toList_mk] at hc
  exact natDigitsAux_subset _ _ c hc

theorem tenthsStr_subset (n : Nat) :
    ∀ c ∈ (tenthsStr n).toList, c ∈ ['0', '1', '2', '3', '4', '5', '6', '7', '8', '9', '.'] := by
  intro c hc
  rw [tenthsStr, toList_mk] at hc
  rcases List.mem_append.mp hc with h | h
  · have hd := natDigitsAux_subset _ _ c h
    simp only [List.mem_cons, List.mem_singleton] at hd ⊢
    tauto
  · simp only [List.mem_cons, List.not_mem_nil, or_false] at h
    rcases h with h | h
    · simp [h]
    · have hd := digitChar_mem_digits (n % 10)
      simp only [List.mem_cons, List.mem_singleton] at hd ⊢
      rw [h]
      tauto

theorem concat3_ne_empty (a x b : String) (ha : a.toList ≠ []) : a ++ x ++ b ≠ "" := by
  intro he
  have h : (a ++ x ++ b).toList = [] := by rw [he]; rfl
  rw [toList_append, toList_append] at h
  exact ha (List.append_eq_nil.mp (List.append_eq_nil.mp h).1).1

/-- A message of the form `a ++ x ++ b` contains the pattern `p` when the
literal `a` decomposes as `p ++ a2`. -/
theorem strContainsSub_of_literal (a x b p a2 : String)
    (hA : a.toList = p.toList ++ a2.toList) :
    strContainsSub (a ++ x ++ b) p = true := by
  unfold strContainsSub
  apply listContainsSub_of_startsWith
  rw [toList_append, toList_append, hA, List.append_assoc, List.append_assoc]
  exact listStartsWith_append _ _

/-- A message of the form `a ++ x ++ b` does not contain a pattern one of
whose characters occurs in none of the three parts. -/
theorem not_strContainsSub_of_char (a x b p : String) (c : Char)
    (hcP : c ∈ p.toList) (hA : c ∉ a.toList) (hx : c ∉ x.toList) (hB : c ∉ b.toList) :
    strContainsSub (a ++ x ++ b) p = false := by
  unfold strContainsSub
  apply listContainsSub_eq_false _ _ c hcP
  rw [toList_append, toList_append]
  simp only [List.mem_append]
  tauto

theorem char_not_mem_natStr (m : Nat) (c : Char)
    (hc : c ∉ ['0', '1', '2', '3', '4', '5', '6', '7', '8', '9']) :
    c ∉ (natStr m).toList :=
  fun h => hc (natStr_subset m c h)

theorem char_not_mem_tenthsStr (m : Nat) (c : Char)
    (hc : c ∉ ['0', '1', '2', '3', '4', '5', '6', '7', '8', '9', '.']) :
    c ∉ (tenthsStr m).toList :=
  fun h => hc (tenthsStr_subset m c h)

/-- Every branch of `_get_timing_warning` returns a non-empty string. -/
theorem getTimingWarning_ne_empty (raw msg : String) : getTimingWarning raw msg ≠ "" := by
  unfold getTimingWarning
  split_ifs <;> exact concat3_ne_empty _ _ _ (by decide)

/-! ### Regime characterizations of `checkTradingWindow` -/

theorem ctw_weekend (wd t : Nat) (h : tradingRegime wd t = .weekend) :
    checkTradingWindow wd t =
      (false, "Weekend (Saturday) - Market opens Monday at 9:30 AM EDT") ∨
    checkTradingWindow wd t =
      (false, "Weekend (Sunday) - Market opens Monday at 9:30 AM EDT") := by
  unfold tradingRegime at h
  unfold checkTradingWindow
  split_ifs at h ⊢ <;> simp_all

theorem ctw_preMarket (wd t : Nat) (h : tradingRegime wd t = .preMarket) :
    checkTradingWindow wd t =
      (false, "Market opens in " ++ tenthsStr (hoursUntilTenths t) ++ " hours (9:30 AM EDT)") := by
  unfold tradingRegime at h
  unfold checkTradingWindow
  split_ifs at h ⊢ <;> simp_all

theorem ctw_openingVol (wd t : Nat) (h : tradingRegime wd t = .openingVol) :
    checkTradingWindow wd t =
      (false, "OPENING VOLATILITY - Trading window opens in " ++
        natStr ((tradingStartUs - t) / usPerMinute) ++ " minutes (9:45 AM)") := by
  unfold tradingRegime at h
  unfold checkTradingWindow
  split_ifs at h ⊢ <;> simp_all

theorem ctw_prime (wd t : Nat) (h : tradingRegime wd t = .prime) :
    checkTradingWindow wd t =
      (true, "PRIME 0DTE WINDOW - " ++ natStr ((tradingEndUs - t) / usPerMinute) ++
        " minutes left in optimal zone") := by
  unfold tradingRegime at h
  unfold checkTradingWindow
  split_ifs at h ⊢ <;> simp_all

theorem ctw_postWindow (wd t : Nat) (h : tradingRegime wd t = .postWindow) :
    checkTradingWindow wd t = (false, "POST-WINDOW - Gap edge diminished, wait for tomorrow") := by
  unfold tradingRegime at h
  unfold checkTradingWindow
  split_ifs at h ⊢ <;> simp_all

theorem ctw_lunch (wd t : Nat) (h : tradingRegime wd t = .lunch) :
    checkTradingWindow wd t = (false, "LUNCH DOLDRUMS - Low volume, avoid 0DTE trades") := by
  unfold tradingRegime at h
  unfold checkTradingWindow
  split_ifs at h ⊢ <;> simp_all

theorem ctw_danger (wd t : Nat) (h : tradingRegime wd t = .danger) :
    checkTradingWindow wd t =
      (false, "DANGER ZONE - Extreme theta burn, exit only (" ++
        natStr ((marketCloseUs - t) / usPerMinute) ++ " min to close)") := by
  unfold tradingRegime at h
  unfold checkTradingWindow
  split_ifs at h ⊢ <;> simp_all

theorem ctw_closed (wd t : Nat) (h : tradingRegime wd t = .closed) :
    checkTradingWindow wd t =
      (false, "Market closed - Next 0DTE window: " ++
        (if wd = 4 then "Monday" else "Tomorrow") ++ " 9:45-11:00 AM") := by
  unfold tradingRegime at h
  unfold checkTradingWindow
  split_ifs at h ⊢ <;> simp_all

/-! ### Timing-warning dispatch on each regime's message -/

theorem warn_openingVol (raw : String) (m : Nat) :
    getTimingWarning raw ("OPENING VOLATILITY - Trading window opens in " ++
        natStr m ++ " minutes (9:45 AM)") =
      "TIMING WARNING: Indicators show " ++ raw ++
        ", but opening volatility makes execution risky. Wait for 9:45 AM." := by
  unfold getTimingWarning
  rw [if_pos (strContainsSub_of_literal _ _ _ "OPENING VOLATILITY"
    " - Trading window opens in " (by decide))]

theorem warn_postWindow (raw : String) :
    getTimingWarning raw "POST-WINDOW - Gap edge diminished, wait for tomorrow" =
      "TIMING WARNING: Indicators show " ++ raw ++
        ", but gap edge has diminished. Consider waiting for tomorrow." := by
  unfold getTimingWarning
  rw [if_neg (by decide), if_pos (by decide)]

theorem warn_lunch (raw : String) :
    getTimingWarning raw "LUNCH DOLDRUMS - Low volume, avoid 0DTE trades" =
      "TIMING WARNING: Indicators show " ++ raw ++
        ", but low volume makes fills poor. Avoid lunch hours." := by
  unfold getTimingWarning
  rw [if_neg (by decide), if_neg (by decide), if_pos (by decide)]

theorem warn_danger (raw : String) (m : Nat) :
    getTimingWarning raw ("DANGER ZONE - Extreme theta burn, exit only (" ++
        natStr m ++ " min to close)") =
      "TIMING WARNING: Indicators show " ++ raw ++
        ", but theta burn is extreme. Exit existing positions only." := by
  have h1 : strContainsSub ("DANGER ZONE - Extreme theta burn, exit only (" ++
      natStr m ++ " min to close)") "OPENING VOLATILITY" = false :=
    not_strContainsSub_of_char _ _ _ _ 'V' (by decide) (by decide)
      (char_not_mem_natStr m 'V' (by decide)) (by decide)
  have h2 : strContainsSub ("DANGER ZONE - Extreme theta burn, exit only (" ++
      natStr m ++ " min to close)") "POST-WINDOW" = false :=
    not_strContainsSub_of_char _ _ _ _ 'W' (by decide) (by decide)
      (char_not_mem_natStr m 'W' (by decide)) (by decide)
  have h3 : strContainsSub ("DANGER ZONE - Extreme theta burn, exit only (" ++
      natStr m ++ " min to close)") "LUNCH DOLDRUMS" = false :=
    not_strContainsSub_of_char _ _ _ _ 'U' (by decide) (by decide)
      (char_not_mem_natStr m 'U' (by decide)) (by decide)
  unfold getTimingWarning
  rw [if_neg (by simp [h1]), if_neg (by simp [h2]), if_neg (by simp [h3]),
    if_pos (strContainsSub_of_literal _ _ _ "DANGER ZONE"
      " - Extreme theta burn, exit only (" (by decide))]

theorem warn_weekend_sat (raw : String) :
    getTimingWarning raw "Weekend (Saturday) - Market opens Monday at 9:30 AM EDT" =
      "ANALYSIS ONLY: Indicators would suggest " ++ raw ++
        " if market were open. Review for Monday." := by
  unfold getTimingWarning
  rw [if_neg (by decide), if_neg (by decide), if_neg (by decide), if_neg (by decide),
    if_pos (by decide)]

theorem warn_weekend_sun (raw : String) :
    getTimingWarning raw "Weekend (Sunday) - Market opens Monday at 9:30 AM EDT" =
      "ANALYSIS ONLY: Indicators would suggest " ++ raw ++
        " if market were open. Review for Monday." := by
  unfold getTimingWarning
  rw [if_neg (by decide), if_neg (by decide), if_neg (by decide), if_neg (by decide),
    if_pos (by decide)]

theorem determineSignalStrength_eq (b r : ℚ) :
    determineSignalStrength b r =
      if 7 ≤ b - r then ("STRONG LONG", "HIGH")
      else if 5 ≤ b - r then ("MODERATE LONG", "MEDIUM")
      else if b - r ≤ -7 then ("STRONG SHORT", "HIGH")
      else if b - r ≤ -5 then ("MODERATE SHORT", "MEDIUM")
      else ("NO TRADE", "LOW") := by
  unfold determineSignalStrength strongSignalThreshold moderateSignalThreshold
  norm_num

/-! ### Reductions of `getFinalDecision` -/

/-- When the window check reports non-tradeable, `get_final_decision`
overrides the decision and attaches the timing warning. -/
theorem gfd_outside (inp : EntryInputs) (wd t : Nat) (msg : String)
    (hctw : checkTradingWindow wd t = (false, msg)) :
    (getFinalDecision inp wd t).decision = "NO TRADE - OUTSIDE WINDOW" ∧
    (getFinalDecision inp wd t).rawSignal = rawSignalOf inp ∧
    (getFinalDecision inp wd t).timingWarning =
      some (getTimingWarning (rawSignalOf inp) msg) := by
  unfold getFinalDecision rawSignalOf
  rw [hctw]
  simp

/-- In the prime window, `get_final_decision` passes the raw signal
through and attaches no warning. -/
theorem gfd_prime (inp : EntryInputs) (wd t : Nat) (h : tradingRegime wd t = .prime) :
    (getFinalDecision inp wd t).decision = rawSignalOf inp ∧
    (getFinalDecision inp wd t).rawSignal = rawSignalOf inp ∧
    (getFinalDecision inp wd t).timingWarning = none := by
  unfold getFinalDecision rawSignalOf
  rw [ctw_prime wd t h]
  have hc : strContainsSub ("PRIME 0DTE WINDOW - " ++
      natStr ((tradingEndUs - t) / usPerMinute) ++ " minutes left in optimal zone")
      "PRIME 0DTE WINDOW" = true :=
    strContainsSub_of_literal _ _ _ "PRIME 0DTE WINDOW" " - " (by decide)
  simp [hc]

/-! ### Gap points breakdown field lemmas -/

theorem cpb_gapSize (g d tv av : ℚ) :
    (calculatePointsBreakdown g d tv av).gapSize = gapSizePoints |g| := by
  simp only [calculatePointsBreakdown]
  split_ifs <;> rfl

theorem cpb_statSig (g d tv av : ℚ) :
    (calculatePointsBreakdown g d tv av).statSignificance = statSigPoints |g| := by
  simp only [calculatePointsBreakdown]
  split_ifs <;> rfl

theorem cpb_volConf (g d tv av : ℚ) :
    (calculatePointsBreakdown g d tv av).volumeConfirmation =
      volConfPoints (volumeSurgeOf tv av) := by
  simp only [calculatePointsBreakdown]
  split_ifs <;> rfl

theorem cpb_vwapAlign (g d tv av : ℚ) :
    (calculatePointsBreakdown g d tv av).vwapAlignment = vwapAlignPoints d := by
  simp only [calculatePointsBreakdown]
  split_ifs <;> rfl

theorem cpb_es (g d tv av : ℚ) :
    (calculatePointsBreakdown g d tv av).esAlignment = 0.5 := by
  simp only [calculatePointsBreakdown]
  split_ifs <;> rfl

theorem cpb_total_eq_sum (g d tv av : ℚ) :
    (calculatePointsBreakdown g d tv av).totalBasePoints =
      (calculatePointsBreakdown g d tv av).gapSize +
      (calculatePointsBreakdown g d tv av).statSignificance +
      (calculatePointsBreakdown g d tv av).volumeConfirmation +
      (calculatePointsBreakdown g d tv av).vwapAlignment +
      (calculatePointsBreakdown g d tv av).esAlignment := by
  simp only [calculatePointsBreakdown]
  split_ifs <;> rfl

theorem cpb_final_eq_base_mul (g d tv av : ℚ) :
    (calculatePointsBreakdown g d tv av).finalPoints =
      (calculatePointsBreakdown g d tv av).totalBasePoints *
        (calculatePointsBreakdown g d tv av).directionMultiplier := by
  simp only [calculatePointsBreakdown]
  split_ifs <;> dsimp only <;> ring_nf <;> norm_num

theorem cpb_multiplier (g d tv av : ℚ) :
    (calculatePointsBreakdown g d tv av).directionMultiplier =
      if g < 0 then (if d < 0 then -1.0 else -0.5)
      else (if d > 0 then 1.0 else 0.5) := by
  simp only [calculatePointsBreakdown]
  split_ifs <;> rfl

/-- With the hardcoded volumes 50000000 and 45000000 the surge ratio is
10/9 < 1.5, so the volume-confirmation sub-score is always zero. -/
theorem cpb_volConf_hardcoded (g d : ℚ) :
    (calculatePointsBreakdown g d 50000000 45000000).volumeConfirmation = 0 := by
  rw [cpb_volConf]
  unfold volConfPoints volumeSurgeOf
  norm_num

/-! ### Exit pipeline lemmas -/

theorem signalRank_le_three (s : String) : signalRank s ≤ 3 := by
  unfold signalRank
  split_ifs <;> omega

theorem urgencyRank_le_three (u : String) : urgencyRank u ≤ 3 := by
  unfold urgencyRank
  split_ifs <;> omega

theorem analyzeTimeExits_inv (s : ExitSignals) (m : ℚ) (h : ExitInv s) :
    ExitInv (analyzeTimeExits s m) := by
  obtain ⟨h0, hI, hS, hD, hE⟩ := h
  unfold ExitInv analyzeTimeExits
  split_ifs with h1 h2 h3 <;> (try dsimp only)
  · exact ⟨by omega, fun _ => by omega, fun hx => absurd hx (by decide),
      Or.inr (Or.inl ⟨rfl, rfl⟩), hE⟩
  · exact ⟨by omega, fun hx => absurd hx (by decide), fun _ => by omega,
      Or.inr (Or.inr ⟨rfl, rfl⟩), hE⟩
  · exact ⟨by omega, fun hx => by have := hI hx; omega,
      fun hx => by have := hS hx; omega, hD, hE⟩
  · exact ⟨h0, hI, hS, hD, hE⟩

theorem analyzeProfitExits_inv (s : ExitSignals) (p : ℚ) (h : ExitInv s) :
    ExitInv (analyzeProfitExits s p) := by
  obtain ⟨h0, hI, hS, hD, hE⟩ := h
  unfold ExitInv analyzeProfitExits
  split_ifs <;> (try dsimp only) <;>
    exact ⟨by omega, fun hx => by have := hI hx; omega,
      fun hx => by have := hS hx; omega, hD, hE⟩

theorem analyzeStopLossExits_inv (s : ExitSignals) (p : ℚ) (h : ExitInv s) :
    ExitInv (analyzeStopLossExits s p) := by
  obtain ⟨h0, hI, hS, hD, hE⟩ := h
  unfold ExitInv analyzeStopLossExits
  split_ifs <;> (try dsimp only)
  · exact ⟨by omega, fun _ => by omega, fun hx => absurd hx (by decide),
      Or.inr (Or.inl ⟨rfl, rfl⟩), hE⟩
  · exact ⟨by omega, fun hx => absurd hx (by decide), fun _ => by omega,
      Or.inr (Or.inr ⟨rfl, rfl⟩), hE⟩
  · exact ⟨by omega, fun hx => by have := hI hx; omega,
      fun hx => by have := hS hx; omega, hD, hE⟩
  · exact ⟨h0, hI, hS, hD, hE⟩

theorem analyzeTargetExits_inv (s : ExitSignals) (ed : String) (u d sp : ℚ)
    (h : ExitInv s) : ExitInv (analyzeTargetExits s ed u d sp) := by
  obtain ⟨h0, hI, hS, hD, hE⟩ := h
  unfold ExitInv analyzeTargetExits
  split_ifs <;> (try dsimp only) <;>
    exact ⟨by omega, fun hx => by have := hI hx; omega,
      fun hx => by have := hS hx; omega, hD, hE⟩

theorem preFinal_inv (ed : String) (ep cp m u d sp : ℚ) :
    ExitInv (preFinalExitState ed ep cp m u d sp) := by
  unfold preFinalExitState
  apply analyzeTargetExits_inv
  apply analyzeStopLossExits_inv
  apply analyzeProfitExits_inv
  apply analyzeTimeExits_inv
  unfold ExitInv
  dsimp only [initExitSignals]
  decide

theorem analyzeTimeExits_pnl (s : ExitSignals) (m : ℚ) :
    (analyzeTimeExits s m).profitLossPct = s.profitLossPct := by
  unfold analyzeTimeExits
  split_ifs <;> rfl

theorem analyzeProfitExits_pnl (s : ExitSignals) (p : ℚ) :
    (analyzeProfitExits s p).profitLossPct = s.profitLossPct := by
  unfold analyzeProfitExits
  split_ifs <;> rfl

theorem analyzeStopLossExits_pnl (s : ExitSignals) (p : ℚ) :
    (analyzeStopLossExits s p).profitLossPct = s.profitLossPct := by
  unfold analyzeStopLossExits
  split_ifs <;> rfl

theorem analyzeTargetExits_pnl (s : ExitSignals) (ed : String) (u d sp : ℚ) :
    (analyzeTargetExits s ed u d sp).profitLossPct = s.profitLossPct := by
  unfold analyzeTargetExits
  split_ifs <;> rfl

theorem makeFinalExitDecision_pnl (s : ExitSignals) :
    (makeFinalExitDecision s).profitLossPct = s.profitLossPct := by
  unfold makeFinalExitDecision
  split_ifs <;> rfl

/-! ## Claim theorems -/

/-- C1: the entry decision classifier maps `net = bullish - bearish` to
exactly one of the five decisions with inclusive thresholds: `net ≥ 7`
yields STRONG LONG/HIGH, `5 ≤ net < 7` MODERATE LONG/MEDIUM, `net ≤ -7`
STRONG SHORT/HIGH, `-7 < net ≤ -5` MODERATE SHORT/MEDIUM, and
`-5 < net < 5` NO TRADE/LOW, for all non-negative totals. -/
theorem C1_entry_classifier (b r : ℚ) (hb : 0 ≤ b) (hr : 0 ≤ r) :
    (7 ≤ b - r → determineSignalStrength b r = ("STRONG LONG", "HIGH")) ∧
    (5 ≤ b - r ∧ b - r < 7 →
      determineSignalStrength b r = ("MODERATE LONG", "MEDIUM")) ∧
    (b - r ≤ -7 → determineSignalStrength b r = ("STRONG SHORT", "HIGH")) ∧
    (-7 < b - r ∧ b - r ≤ -5 →
      determineSignalStrength b r = ("MODERATE SHORT", "MEDIUM")) ∧
    (-5 < b - r ∧ b - r < 5 →
      determineSignalStrength b r = ("NO TRADE", "LOW")) := by
  rw [determineSignalStrength_eq]
  refine ⟨?_, ?_, ?_, ?_, ?_⟩ <;> intro h <;>
    (try rcases h with ⟨hL, hR⟩) <;> split_ifs with h1 h2 h3 h4 <;>
    first
      | rfl
      | (exfalso; linarith)

/-- Witness for C1 at concrete totals: bullish 7, bearish 0 gives STRONG
LONG with HIGH confidence. -/
theorem C1_entry_classifier_witness :
    determineSignalStrength 7 0 = ("STRONG LONG", "HIGH") :=
  (C1_entry_classifier 7 0 (by norm_num) (by norm_num)).1 (by norm_num)

/-- C2: for every analyzer input and every evaluation time whose regime is
not the prime window, `get_final_decision` returns decision
`NO TRADE - OUTSIDE WINDOW` while `raw_signal` carries the un-gated
classification and a non-empty timing warning is attached; the warning is
keyed to the regime (opening volatility, post-window, lunch, danger zone,
weekend); during the prime window the decision equals the raw signal and
the warning is absent. -/
theorem C2_window_gating (inp : EntryInputs) (wd t : Nat) :
    (tradingRegime wd t ≠ Regime.prime →
      (getFinalDecision inp wd t).decision = "NO TRADE - OUTSIDE WINDOW" ∧
      (getFinalDecision inp wd t).rawSignal = rawSignalOf inp ∧
      ∃ w, (getFinalDecision inp wd t).timingWarning = some w ∧ w ≠ "") ∧
    (tradingRegime wd t = Regime.prime →
      (getFinalDecision inp wd t).decision = rawSignalOf inp ∧
      (getFinalDecision inp wd t).rawSignal = rawSignalOf inp ∧
      (getFinalDecision inp wd t).timingWarning = none) ∧
    (tradingRegime wd t = Regime.openingVol →
      (getFinalDecision inp wd t).timingWarning =
        some ("TIMING WARNING: Indicators show " ++ rawSignalOf inp ++
          ", but opening volatility makes execution risky. Wait for 9:45 AM.")) ∧
    (tradingRegime wd t = Regime.postWindow →
      (getFinalDecision inp wd t).timingWarning =
        some ("TIMING WARNING: Indicators show " ++ rawSignalOf inp ++
          ", but gap edge has diminished. Consider waiting for tomorrow.")) ∧
    (tradingRegime wd t = Regime.lunch →
      (getFinalDecision inp wd t).timingWarning =
        some ("TIMING WARNING: Indicators show " ++ rawSignalOf inp ++
          ", but low volume makes fills poor. Avoid lunch hours.")) ∧
    (tradingRegime wd t = Regime.danger →
      (getFinalDecision inp wd t).timingWarning =
        some ("TIMING WARNING: Indicators show " ++ rawSignalOf inp ++
          ", but theta burn is extreme. Exit existing positions only.")) ∧
    (tradingRegime wd t = Regime.weekend →
      (getFinalDecision inp wd t).timingWarning =
        some ("ANALYSIS ONLY: Indicators would suggest " ++ rawSignalOf inp ++
          " if market were open. Review for Monday.")) := by
  refine ⟨fun hne => ?_, fun hp => gfd_prime inp wd t hp, fun ho => ?_, fun hpw => ?_,
    fun hl => ?_, fun hd => ?_, fun hw => ?_⟩
  · cases hreg : tradingRegime wd t
    case prime => exact absurd hreg hne
    case weekend =>
      rcases ctw_weekend wd t hreg with hmsg | hmsg <;>
        exact ⟨(gfd_outside inp wd t _ hmsg).1, (gfd_outside inp wd t _ hmsg).2.1,
          _, (gfd_outside inp wd t _ hmsg).2.2, getTimingWarning_ne_empty _ _⟩
    case preMarket =>
      exact ⟨(gfd_outside inp wd t _ (ctw_preMarket wd t hreg)).1,
        (gfd_outside inp wd t _ (ctw_preMarket wd t hreg)).2.1,
        _, (gfd_outside inp wd t _ (ctw_preMarket wd t hreg)).2.2,
        getTimingWarning_ne_empty _ _⟩
    case openingVol =>
      exact ⟨(gfd_outside inp wd t _ (ctw_openingVol wd t hreg)).1,
        (gfd_outside inp wd t _ (ctw_openingVol wd t hreg)).2.1,
        _, (gfd_outside inp wd t _ (ctw_openingVol wd t hreg)).2.2,
        getTimingWarning_ne_empty _ _⟩
    case postWindow =>
      exact ⟨(gfd_outside inp wd t _ (ctw_postWindow wd t hreg)).1,
        (gfd_outside inp wd t _ (ctw_postWindow wd t hreg)).2.1,
        _, (gfd_outside inp wd t _ (ctw_postWindow wd t hreg)).2.2,
        getTimingWarning_ne_empty _ _⟩
    case lunch =>
      exact ⟨(gfd_outside inp wd t _ (ctw_lunch wd t hreg)).1,
        (gfd_outside inp wd t _ (ctw_lunch wd t hreg)).2.1,
        _, (gfd_outside inp wd t _ (ctw_lunch wd t hreg)).2.2,
        getTimingWarning_ne_empty _ _⟩
    case danger =>
      exact ⟨(gfd_outside inp wd t _ (ctw_danger wd t hreg)).1,
        (gfd_outside inp wd t _ (ctw_danger wd t hreg)).2.1,
        _, (gfd_outside inp wd t _ (ctw_danger wd t hreg)).2.2,
        getTimingWarning_ne_empty _ _⟩
    case closed =>
      exact ⟨(gfd_outside inp wd t _ (ctw_closed wd t hreg)).1,
        (gfd_outside inp wd t _ (ctw_closed wd t hreg)).2.1,
        _, (gfd_outside inp wd t _ (ctw_closed wd t hreg)).2.2,
        getTimingWarning_ne_empty _ _⟩
  · rw [(gfd_outside inp wd t _ (ctw_openingVol wd t ho)).2.2, warn_openingVol]
  · rw [(gfd_outside inp wd t _ (ctw_postWindow wd t hpw)).2.2, warn_postWindow]
  · rw [(gfd_outside inp wd t _ (ctw_lunch wd t hl)).2.2, warn_lunch]
  · rw [(gfd_outside inp wd t _ (ctw_danger wd t hd)).2.2, warn_danger]
  · rcases ctw_weekend wd t hw with hmsg | hmsg
    · rw [(gfd_outside inp wd t _ hmsg).2.2, warn_weekend_sat]
    · rw [(gfd_outside inp wd t _ hmsg).2.2, warn_weekend_sun]

/-- Witness for C2 at a concrete lunch-regime time (Wednesday 12:00:00):
a strongly bullish input set still yields the override decision, and the
raw signal and timing warning are exposed. -/
theorem C2_window_gating_witness :
    SpyDash.tradingRegime 2 43200000000 ≠ SpyDash.Regime.prime ∧
    (SpyDash.getFinalDecision
        ⟨3, 2, 1, 1, 1, 1, true, 1⟩ 2 43200000000).decision =
      "NO TRADE - OUTSIDE WINDOW" := by
  refine ⟨by decide, ?_⟩
  exact ((C2_window_gating ⟨3, 2, 1, 1, 1, 1, true, 1⟩ 2 43200000000).1 (by decide)).1

/-- C3: gap-size points are determined by the absolute gap with inclusive
lower bucket bounds and non-monotonic values: `|gap| ≥ 2.5` gives 1.0
(MONSTER), `1.5 ≤ |gap| < 2.5` gives 2.0 (LARGE), `0.75 ≤ |gap| < 1.5`
gives 1.5 (MEDIUM), `0.5 ≤ |gap| < 0.75` gives 1.0 (SMALL), `|gap| < 0.5`
gives 0.0 (MINIMAL). -/
theorem C3_gap_buckets (g d tv av : ℚ) :
    (2.5 ≤ |g| →
      (calculatePointsBreakdown g d tv av).gapSize = 1.0 ∧ getGapCategory |g| = "MONSTER") ∧
    (1.5 ≤ |g| ∧ |g| < 2.5 →
      (calculatePointsBreakdown g d tv av).gapSize = 2.0 ∧ getGapCategory |g| = "LARGE") ∧
    (0.75 ≤ |g| ∧ |g| < 1.5 →
      (calculatePointsBreakdown g d tv av).gapSize = 1.5 ∧ getGapCategory |g| = "MEDIUM") ∧
    (0.5 ≤ |g| ∧ |g| < 0.75 →
      (calculatePointsBreakdown g d tv av).gapSize = 1.0 ∧ getGapCategory |g| = "SMALL") ∧
    (|g| < 0.5 →
      (calculatePointsBreakdown g d tv av).gapSize = 0.0 ∧ getGapCategory |g| = "MINIMAL") := by
  rw [cpb_gapSize]
  unfold gapSizePoints getGapCategory
  refine ⟨?_, ?_, ?_, ?_, ?_⟩ <;> intro h <;>
    (try rcases h with ⟨hL, hR⟩) <;> split_ifs <;>
    first
      | exact ⟨rfl, rfl⟩
      | (exfalso; linarith)

/-- Witness for C3 at the boundary inputs from the spec: gap 1.5 scores
2.0 (LARGE) while gap 1.49999 scores 1.5 (MEDIUM). -/
theorem C3_gap_buckets_witness :
    (calculatePointsBreakdown 1.5 0 50000000 45000000).gapSize = 2.0 ∧
    getGapCategory |(1.5 : ℚ)| = "LARGE" ∧
    (calculatePointsBreakdown 1.49999 0 50000000 45000000).gapSize = 1.5 ∧
    getGapCategory |(1.49999 : ℚ)| = "MEDIUM" := by
  have ha : |(1.5 : ℚ)| = 1.5 := abs_of_pos (by norm_num)
  have hb : |(1.49999 : ℚ)| = 1.49999 := abs_of_pos (by norm_num)
  have h1 := (C3_gap_buckets 1.5 0 50000000 45000000).2.1 (by rw [ha]; norm_num)
  have h2 := (C3_gap_buckets 1.49999 0 50000000 45000000).2.2.1 (by rw [hb]; norm_num)
  exact ⟨h1.1, h1.2, h2.1, h2.2⟩

/-- C4: the final points equal the base points times a direction
multiplier whose sign follows the gap direction; the magnitude is 1.0 when
gap direction and VWAP side agree (`gap < 0` with `distance < 0`, or
`gap ≥ 0` with `distance > 0`) and 0.5 when they disagree. -/
theorem C4_direction_multiplier (g d tv av : ℚ) :
    (calculatePointsBreakdown g d tv av).finalPoints =
      (calculatePointsBreakdown g d tv av).totalBasePoints *
        (calculatePointsBreakdown g d tv av).directionMultiplier ∧
    (g < 0 → d < 0 → (calculatePointsBreakdown g d tv av).directionMultiplier = -1.0) ∧
    (g < 0 → 0 ≤ d → (calculatePointsBreakdown g d tv av).directionMultiplier = -0.5) ∧
    (0 ≤ g → 0 < d → (calculatePointsBreakdown g d tv av).directionMultiplier = 1.0) ∧
    (0 ≤ g → d ≤ 0 → (calculatePointsBreakdown g d tv av).directionMultiplier = 0.5) := by
  refine ⟨cpb_final_eq_base_mul g d tv av, ?_, ?_, ?_, ?_⟩ <;> intro h1 h2 <;>
    rw [cpb_multiplier]
  · rw [if_pos h1, if_pos h2]
  · rw [if_pos h1, if_neg (not_lt.mpr h2)]
  · rw [if_neg (not_lt.mpr h1), if_pos h2]
  · rw [if_neg (not_lt.mpr h1), if_neg (not_lt.mpr h2)]

/-- Witness for C4 at the spec's example inputs: gap −2.0 with distance
−0.3 gives multiplier −1.0 (so final = −base), and gap −2.0 with distance
+0.3 gives multiplier −0.5 (final = −base×0.5). -/
theorem C4_direction_multiplier_witness :
    (calculatePointsBreakdown (-2) (-0.3) 50000000 45000000).directionMultiplier = -1.0 ∧
    (calculatePointsBreakdown (-2) (0.3) 50000000 45000000).directionMultiplier = -0.5 := by
  constructor
  · exact (C4_direction_multiplier (-2) (-0.3) 50000000 45000000).2.1
      (by norm_num) (by norm_num)
  · exact (C4_direction_multiplier (-2) (0.3) 50000000 45000000).2.2.1
      (by norm_num) (by norm_num)

/-- C8: `calculate_gap_analysis` always returns a result — the `try:`
body's value when it succeeds, and otherwise the fixed fallback with
`gap_pct = -1.17`, category MEDIUM, `total_points = -2.0` and data source
tag "Proxy Fallback". -/
theorem C8_gap_fallback (env : GapEnv) :
    ((∃ r, calculateGapAnalysisTry env = Except.ok r ∧ calculateGapAnalysis env = r) ∨
      (∃ e, calculateGapAnalysisTry env = Except.error e ∧
        calculateGapAnalysis env = fallbackGapAnalysis)) ∧
    (∀ e, calculateGapAnalysisTry env = Except.error e →
      (calculateGapAnalysis env).gapPct = -1.17 ∧
      (calculateGapAnalysis env).gapSizeCategory = "MEDIUM" ∧
      (calculateGapAnalysis env).totalPoints = -2.0 ∧
      (calculateGapAnalysis env).dataSource = "Proxy Fallback") := by
  constructor
  · cases h : calculateGapAnalysisTry env with
    | ok r => exact Or.inl ⟨r, rfl, by unfold calculateGapAnalysis; rw [h]⟩
    | error e => exact Or.inr ⟨e, rfl, by unfold calculateGapAnalysis; rw [h]⟩
  · intro e he
    unfold calculateGapAnalysis
    rw [he]
    exact ⟨rfl, rfl, rfl, rfl⟩

/-- Witness for C8: an environment whose gap fetch raises produces the
fixed fallback values. -/
theorem C8_gap_fallback_witness :
    (calculateGapAnalysis
        ⟨Except.ok ⟨640.27, 50000000, 45000000, 0, "Tradier"⟩,
          Except.error "boom", 2⟩).gapPct = -1.17 ∧
    (calculateGapAnalysis
        ⟨Except.ok ⟨640.27, 50000000, 45000000, 0, "Tradier"⟩,
          Except.error "boom", 2⟩).gapSizeCategory = "MEDIUM" ∧
    (calculateGapAnalysis
        ⟨Except.ok ⟨640.27, 50000000, 45000000, 0, "Tradier"⟩,
          Except.error "boom", 2⟩).totalPoints = -2.0 ∧
    (calculateGapAnalysis
        ⟨Except.ok ⟨640.27, 50000000, 45000000, 0, "Tradier"⟩,
          Except.error "boom", 2⟩).dataSource = "Proxy Fallback" :=
  (C8_gap_fallback
      ⟨Except.ok ⟨640.27, 50000000, 45000000, 0, "Tradier"⟩,
        Except.error "boom", 2⟩).2 "boom" rfl

/-- C9: on every successful weekday run, the volume surge ratio reported
by the gap analysis is the hardcoded 50000000/45000000 and the
volume-confirmation sub-score is 0.0, regardless of the live volume data
carried in `spy_data`. -/
theorem C9_hardcoded_volume (env : GapEnv) (r : GapAnalysisResult)
    (hwd : env.weekday < 5) (h : calculateGapAnalysisTry env = Except.ok r) :
    r.volumeSurgeRatio = 50000000 / 45000000 ∧
    ("volume_confirmation", (0 : ℚ)) ∈ r.subComponents := by
  obtain ⟨sd, gd, wdn⟩ := env
  cases sd with
  | error e => simp [calculateGapAnalysisTry] at h
  | ok spy =>
    cases gd with
    | error e =>
      simp only [calculateGapAnalysisTry] at h
      rw [if_neg (by simp only at hwd; omega)] at h
      exact absurd h (by simp)
    | ok gp =>
      simp only [calculateGapAnalysisTry] at h
      rw [if_neg (by simp only at hwd; omega)] at h
      obtain rfl := Except.ok.inj h
      constructor
      · norm_num
      · simp [cpb_volConf_hardcoded]

/-- Witness for C9: a weekday environment carrying wildly surging live
volume (999999 vs 1) still reports ratio 50000000/45000000 and a zero
volume-confirmation sub-score. -/
theorem C9_hardcoded_volume_witness :
    (calculateGapAnalysis
        ⟨Except.ok ⟨640.27, 999999, 1, 0.3, "Tradier"⟩, Except.ok (-1.2), 2⟩).volumeSurgeRatio =
      50000000 / 45000000 ∧
    ("volume_confirmation", (0 : ℚ)) ∈
      (calculateGapAnalysis
        ⟨Except.ok ⟨640.27, 999999, 1, 0.3, "Tradier"⟩, Except.ok (-1.2), 2⟩).subComponents :=
  C9_hardcoded_volume
    ⟨Except.ok ⟨640.27, 999999, 1, 0.3, "Tradier"⟩, Except.ok (-1.2), 2⟩
    (calculateGapAnalysis
      ⟨Except.ok ⟨640.27, 999999, 1, 0.3, "Tradier"⟩, Except.ok (-1.2), 2⟩)
    (by norm_num) rfl

/-- C5 counterexample: the claim "total_points equals the sum of the
named sub-component points" fails on the gap analyzer.  At gap −2.0% with
VWAP distance −0.3% the sub-components sum to +4.0 (2.0 gap size + 0.5
significance + 0 volume + 1.0 VWAP + 0.5 ES) but `total_points` is the
direction-multiplied −4.0. -/
theorem C5_total_consistency_counterexample :
    ¬ ((calculateGapAnalysis
          ⟨Except.ok ⟨640.27, 1, 1, -0.3, "Tradier"⟩, Except.ok (-2), 2⟩).totalPoints =
        ((calculateGapAnalysis
          ⟨Except.ok ⟨640.27, 1, 1, -0.3, "Tradier"⟩, Except.ok (-2), 2⟩).subComponents.map
            Prod.snd).sum) := by
  unfold calculateGapAnalysis calculateGapAnalysisTry
  have habs : |(3 / 10 : ℚ)| = 3 / 10 := abs_of_pos (by norm_num)
  norm_num [calculatePointsBreakdown, gapSizePoints, statSigPoints, volConfPoints,
    vwapAlignPoints, volumeSurgeOf, habs]

/-- C5 (amended): for the internals, sector and technical analyzers —
including their fallbacks — `total_points` equals the sum of the named
sub-component points.  For the gap analyzer, every successful analysis has
`total_points` equal to the sub-component sum times the direction
multiplier (so equal to the plain sum only when the multiplier is 1.0),
and the fixed gap fallback's total (−2.0) differs from its single listed
sub-component (1.5). -/
theorem C5_total_consistency_amended :
    (∀ ac tc : Nat, (emergencyProxyInternals ac tc).totalPoints =
      ((emergencyProxyInternals ac tc).subComponents.map Prod.snd).sum) ∧
    emergencyFallbackInternals.totalPoints =
      ((emergencyFallbackInternals.subComponents.map Prod.snd).sum) ∧
    (∀ t r n : Option ℚ, (processRealBreadthData t r n).totalPoints =
      ((processRealBreadthData t r n).subComponents.map Prod.snd).sum) ∧
    (∀ (c : ℚ) (l : List SectorInput), (analyzeSectorsResult c l).totalPoints =
      ((analyzeSectorsResult c l).subComponents.map Prod.snd).sum) ∧
    fallbackSectorAnalysis.totalPoints =
      ((fallbackSectorAnalysis.subComponents.map Prod.snd).sum) ∧
    (∀ d p hi lo vc : ℚ, (calculateTechnicalsBreakdown d p hi lo vc).totalPoints =
      ((calculateTechnicalsBreakdown d p hi lo vc).subComponents.map Prod.snd).sum) ∧
    fallbackTechnicals.totalPoints =
      ((fallbackTechnicals.subComponents.map Prod.snd).sum) ∧
    (∀ (env : GapEnv) (r : GapAnalysisResult), calculateGapAnalysisTry env = Except.ok r →
      r.totalPoints = ((r.subComponents.map Prod.snd).sum) *
        (calculatePointsBreakdown r.gapPct r.vwapDistancePct
          50000000 45000000).directionMultiplier) ∧
    fallbackGapAnalysis.totalPoints = -2.0 ∧
    ((fallbackGapAnalysis.subComponents.map Prod.snd).sum) = 1.5 := by
  refine ⟨?_, ?_, ?_, ?_, ?_, ?_, ?_, ?_, ?_, ?_⟩
  · intro ac tc
    simp only [emergencyProxyInternals, List.map_cons, List.map_nil, List.sum_cons,
      List.sum_nil]
    ring
  · norm_num [emergencyFallbackInternals]
  · intro t r n
    simp only [processRealBreadthData, List.map_cons, List.map_nil, List.sum_cons,
      List.sum_nil]
    ring
  · intro c l
    simp only [analyzeSectorsResult, List.map_map]
    congr 1
  · norm_num [fallbackSectorAnalysis]
  · intro d p hi lo vc
    simp only [calculateTechnicalsBreakdown, List.map_cons, List.map_nil, List.sum_cons,
      List.sum_nil]
    ring
  · norm_num [fallbackTechnicals]
  · intro env r h
    obtain ⟨sd, gd, wdn⟩ := env
    cases sd with
    | error e => simp [calculateGapAnalysisTry] at h
    | ok spy =>
      simp only [calculateGapAnalysisTry] at h
      by_cases hw : wdn ≥ 5
      · rw [if_pos hw] at h
        obtain rfl := Except.ok.inj h
        norm_num [weekendAnalysis, cpb_multiplier]
      · rw [if_neg hw] at h
        cases gd with
        | error e => exact absurd h (by simp)
        | ok gp =>
          obtain rfl := Except.ok.inj h
          simp only [List.map_cons, List.map_nil, List.sum_cons, List.sum_nil]
          rw [cpb_final_eq_base_mul, cpb_total_eq_sum]
          ring
  · norm_num [fallbackGapAnalysis]
  · norm_num [fallbackGapAnalysis]

/-- Witness for the amended C5: the gap relation evaluated on a concrete
weekday environment with gap −2.0 and VWAP distance −0.3. -/
theorem C5_total_consistency_amended_witness :
    (calculateGapAnalysis
        ⟨Except.ok ⟨640.27, 1, 1, -0.3, "Tradier"⟩, Except.ok (-2), 2⟩).totalPoints =
      (((calculateGapAnalysis
        ⟨Except.ok ⟨640.27, 1, 1, -0.3, "Tradier"⟩, Except.ok (-2), 2⟩).subComponents.map
          Prod.snd).sum) *
      (calculatePointsBreakdown
        (calculateGapAnalysis
          ⟨Except.ok ⟨640.27, 1, 1, -0.3, "Tradier"⟩, Except.ok (-2), 2⟩).gapPct
        (calculateGapAnalysis
          ⟨Except.ok ⟨640.27, 1, 1, -0.3, "Tradier"⟩, Except.ok (-2), 2⟩).vwapDistancePct
        50000000 45000000).directionMultiplier :=
  C5_total_consistency_amended.2.2.2.2.2.2.2.1
    ⟨Except.ok ⟨640.27, 1, 1, -0.3, "Tradier"⟩, Except.ok (-2), 2⟩
    (calculateGapAnalysis
      ⟨Except.ok ⟨640.27, 1, 1, -0.3, "Tradier"⟩, Except.ok (-2), 2⟩) rfl

/-- C6: the final exit decision is a function of the cumulative score
(≥8 IMMEDIATE EXIT/CRITICAL, 5–7 STRONG EXIT/HIGH, 3–4 CONSIDER
EXIT/MEDIUM, else HOLD/LOW), `should_exit` is true iff the score is ≥ 5,
the reported score never exceeds 10, and the final step never replaces the
already-set primary signal or urgency with a weaker one. -/
theorem C6_exit_decision (ed : String) (ep cp m u d sp : ℚ) (p r : ExitSignals)
    (hp : p = preFinalExitState ed ep cp m u d sp)
    (hr : r = getExitSignalsCore ed ep cp m u d sp) :
    (8 ≤ r.exitScore → r.primarySignal = "IMMEDIATE EXIT" ∧ r.urgency = "CRITICAL") ∧
    (5 ≤ r.exitScore ∧ r.exitScore < 8 →
      r.primarySignal = "STRONG EXIT" ∧ r.urgency = "HIGH") ∧
    (3 ≤ r.exitScore ∧ r.exitScore < 5 →
      r.primarySignal = "CONSIDER EXIT" ∧ r.urgency = "MEDIUM") ∧
    (r.exitScore < 3 → r.primarySignal = "HOLD" ∧ r.urgency = "LOW") ∧
    (r.shouldExit = true ↔ 5 ≤ r.exitScore) ∧
    r.exitScore ≤ 10 ∧
    signalRank p.primarySignal ≤ signalRank r.primarySignal ∧
    urgencyRank p.urgency ≤ urgencyRank r.urgency := by
  subst hp
  subst hr
  obtain ⟨h0, hI, hS, hD, hE⟩ := preFinal_inv ed ep cp m u d sp
  unfold getExitSignalsCore makeFinalExitDecision
  split_ifs with f1 f2 f3 <;> (try dsimp only)
  · refine ⟨fun _ => ⟨rfl, rfl⟩, fun hx => absurd hx.2 (by omega),
      fun hx => absurd hx.2 (by omega), fun hx => absurd hx (by omega),
      ⟨fun _ => by omega, fun _ => rfl⟩, by omega, ?_, ?_⟩
    · have h3 : signalRank "IMMEDIATE EXIT" = 3 := by decide
      rw [h3]
      exact signalRank_le_three _
    · have h3 : urgencyRank "CRITICAL" = 3 := by decide
      rw [h3]
      exact urgencyRank_le_three _
  · refine ⟨fun hx => absurd hx (by omega), fun _ => ⟨rfl, rfl⟩,
      fun hx => absurd hx.2 (by omega), fun hx => absurd hx (by omega),
      ⟨fun _ => f2, fun _ => rfl⟩, by omega, ?_, ?_⟩
    · rcases hD with ⟨hp1, _⟩ | ⟨hp1, _⟩ | ⟨hp1, _⟩
      · rw [hp1]; decide
      · exact absurd (hI hp1) (by omega)
      · rw [hp1]
    · rcases hD with ⟨hp1, hu1⟩ | ⟨hp1, hu1⟩ | ⟨hp1, hu1⟩
      · rw [hu1]; decide
      · exact absurd (hI hp1) (by omega)
      · rw [hu1]
  · refine ⟨fun hx => absurd hx (by omega), fun hx => absurd hx.1 (by omega),
      fun _ => ⟨rfl, rfl⟩, fun hx => absurd hx (by omega), ?_, by omega, ?_, ?_⟩
    · rw [hE]
      simp only [Bool.false_eq_true, false_iff]
      omega
    · rcases hD with ⟨hp1, _⟩ | ⟨hp1, _⟩ | ⟨hp1, _⟩
      · rw [hp1]; decide
      · exact absurd (hI hp1) (by omega)
      · exact absurd (hS hp1) (by omega)
    · rcases hD with ⟨hp1, hu1⟩ | ⟨hp1, hu1⟩ | ⟨hp1, hu1⟩
      · rw [hu1]; decide
      · exact absurd (hI hp1) (by omega)
      · exact absurd (hS hp1) (by omega)
  · refine ⟨fun hx => absurd hx (by omega), fun hx => absurd hx.1 (by omega),
      fun hx => absurd hx.1 (by omega), fun _ => ?_,
      ?_, by omega, le_refl _, le_refl _⟩
    · rcases hD with ⟨hp1, hu1⟩ | ⟨hp1, hu1⟩ | ⟨hp1, hu1⟩
      · exact ⟨hp1, hu1⟩
      · exact absurd (hI hp1) (by omega)
      · exact absurd (hS hp1) (by omega)
    · rw [hE]
      simp only [Bool.false_eq_true, false_iff]
      omega

/-- Witness for C6 at the spec's saturation scenario: 20 minutes to close
(time tier +8) and an 80% loss (loss tier +8) give a pre-cap score of 16,
reported as 10, with IMMEDIATE EXIT/CRITICAL and `should_exit` true. -/
theorem C6_exit_decision_witness :
    (getExitSignalsCore "STRONG LONG" 1 (1/5) 20 100 90 95).primarySignal =
      "IMMEDIATE EXIT" ∧
    (getExitSignalsCore "STRONG LONG" 1 (1/5) 20 100 90 95).urgency = "CRITICAL" ∧
    (getExitSignalsCore "STRONG LONG" 1 (1/5) 20 100 90 95).exitScore ≤ 10 ∧
    ((getExitSignalsCore "STRONG LONG" 1 (1/5) 20 100 90 95).shouldExit = true ↔
      5 ≤ (getExitSignalsCore "STRONG LONG" 1 (1/5) 20 100 90 95).exitScore) := by
  have h := C6_exit_decision "STRONG LONG" 1 (1/5) 20 100 90 95
    (preFinalExitState "STRONG LONG" 1 (1/5) 20 100 90 95)
    (getExitSignalsCore "STRONG LONG" 1 (1/5) 20 100 90 95) rfl rfl
  have h8 : 8 ≤ (getExitSignalsCore "STRONG LONG" 1 (1/5) 20 100 90 95).exitScore := by
    unfold getExitSignalsCore preFinalExitState analyzeTimeExits analyzeProfitExits
      analyzeStopLossExits analyzeTargetExits makeFinalExitDecision initExitSignals
    norm_num
  exact ⟨(h.1 h8).1, (h.1 h8).2, h.2.2.2.2.2.1, h.2.2.2.2.1⟩

/-- C10: whenever the resolved current valuation is not strictly positive
the exit evaluator sets `profit_loss_pct` to exactly −100, and the P&L
formula `(current − entry)/entry × 100` is applied only when the current
price is positive. -/
theorem C10_pnl_guard (ed : String) (ep cp m u d sp : ℚ) :
    (cp ≤ 0 → (getExitSignalsCore ed ep cp m u d sp).profitLossPct = -100) ∧
    (0 < cp → (getExitSignalsCore ed ep cp m u d sp).profitLossPct =
      ((cp - ep) / ep) * 100) := by
  unfold getExitSignalsCore preFinalExitState
  rw [makeFinalExitDecision_pnl, analyzeTargetExits_pnl, analyzeStopLossExits_pnl,
    analyzeProfitExits_pnl, analyzeTimeExits_pnl]
  dsimp only
  constructor
  · intro h
    rw [if_neg (not_lt.mpr h)]
  · intro h
    rw [if_pos h]

/-- Witness for C10: a position whose resolved current valuation is 0 (a
worthless option) reports exactly −100%. -/
theorem C10_pnl_guard_witness :
    (getExitSignalsCore "MODERATE LONG" 1 0 120 2 3 4).profitLossPct = -100 :=
  (C10_pnl_guard "MODERATE LONG" 1 0 120 2 3 4).1 (le_refl 0)

/-- C7: on Saturday or Sunday the trading-window check is non-tradeable
with a Monday market-open notice, independent of the time of day. -/
theorem C7_weekend_window (wd t : Nat) (h : wd = 5 ∨ wd = 6) :
    (checkTradingWindow wd t).1 = false ∧
    strContainsSub (checkTradingWindow wd t).2 "Market opens Monday" = true := by
  rcases h with h | h <;> subst h <;> unfold checkTradingWindow <;> norm_num <;> decide

/-- Witness for C7 on a concrete Saturday timestamp (noon). -/
theorem C7_weekend_window_witness :
    (SpyDash.checkTradingWindow 5 43200000000).1 = false ∧
    SpyDash.strContainsSub (SpyDash.checkTradingWindow 5 43200000000).2
      "Market opens Monday" = true :=
  C7_weekend_window 5 43200000000 (Or.inl rfl)

end SpyDash
